import Mathlib

/-!
Shallow embedding of the tool-calling orchestration core of the RAG chatbot
repository: the class `AIGenerator` in `backend/ai_generator.py`, i.e. the
methods `generate_response` and `_handle_tool_execution` together with the
constants `MAX_TOOL_ROUNDS` and `SYSTEM_PROMPT`.

Modelling choices:
- The completion engine (`self.client.messages.create`) is an explicit
  function argument `engine : ApiParams → Except String Response`; an
  `Except.error` models the call raising an exception.
- The tool manager (`tool_manager.execute_tool`) is a function
  `ToolManager : String → List (String × String) → Except String String`;
  `Except.error e` models `execute_tool` raising an exception whose string
  form is `e`.
- `response.content[0].text` can raise in Python (IndexError on empty
  content, AttributeError when the first block is a tool_use block); this is
  modelled by `firstBlockText` returning `none` and the outcome
  `Outcome.attrFail`.
- The orchestrator is instrumented to return a `RunLog`: the parameters of
  every completion-engine call in order, the tool dispatches in order, and
  the final outcome.  The Python keyword-argument dict for an API call is
  modelled by `ApiParams`, where `tools = none` / `tool_choice = none` mean
  the corresponding key is absent from the dict; the value
  `tool_choice = some "auto"` models the Python dict value for type auto.
-/

namespace AIGenerator

/-- Content block of a completion-engine response: either a text block or a
tool-use block carrying an id, a tool name and keyword arguments. -/
inductive ContentBlock where
  | text (t : String)
  | toolUse (id : String) (name : String) (input : List (String × String))
deriving DecidableEq, Repr

/-- Completion-engine response: a stop reason and a list of content blocks. -/
structure Response where
  stop_reason : String
  content : List ContentBlock
deriving DecidableEq, Repr

/-- Tool result dict as built by `_handle_tool_execution`; the constant
"type": "tool_result" field is implicit. -/
structure ToolResult where
  tool_use_id : String
  content : String
deriving DecidableEq, Repr

/-- Content of a transcript message: a plain string (the user query), the
content blocks of an assistant response, or a list of tool results. -/
inductive MsgContent where
  | text (s : String)
  | blocks (bs : List ContentBlock)
  | results (rs : List ToolResult)
deriving DecidableEq, Repr

/-- One message of the conversation transcript. -/
structure Message where
  role : String
  content : MsgContent
deriving DecidableEq, Repr

/-- Tool definition as offered to the completion engine (schema opaque). -/
structure ToolDef where
  name : String
  description : String
deriving DecidableEq, Repr

/-- Keyword arguments of one completion-engine call.  `tools = none` and
`tool_choice = none` model the keys being absent from the Python dict. -/
structure ApiParams where
  messages : List Message
  system : String
  tools : Option (List ToolDef)
  tool_choice : Option String
deriving DecidableEq, Repr

/-- The completion engine: `Except.error` models the API call raising. -/
abbrev Engine := ApiParams → Except String Response

/-- The tool manager's `execute_tool`: `Except.error e` models the call
raising an exception rendered as the string `e`. -/
abbrev ToolManager := String → List (String × String) → Except String String

/-- Result of one `generate_response` call, as observed by the caller. -/
inductive Outcome where
  | ok (text : String)
  | attrFail
  | engineFail (e : String)
deriving DecidableEq, Repr

/-- A tool dispatch: the request id, the tool name and keyword arguments
passed to `tool_manager.execute_tool`. -/
abbrev ToolCall := String × String × List (String × String)

/-- Instrumented run of `generate_response`: every completion-engine call's
parameters in order, every tool dispatch in order, and the outcome. -/
structure RunLog where
  calls : List ApiParams
  dispatches : List ToolCall
  outcome : Outcome
deriving DecidableEq, Repr

/-- The static system prompt of `AIGenerator` (class constant
`SYSTEM_PROMPT`), verbatim from the source. -/
def SYSTEM_PROMPT : String := " You are an AI assistant specialized in course materials and educational content with access to a comprehensive search tool for course information.\n\nTool Usage:\n- Use the **search_course_content** tool for questions about specific course content or detailed educational materials\n- Use the **get_course_outline** tool for questions about course structure, syllabus, outline, or lesson listings\n  - When presenting outline results, always include: the course title, the course link, and for each lesson its number and title\n- You may use up to 2 sequential tool calls per query when needed (e.g., first get an outline, then search based on results)\n- Most questions require only one tool call\n- Synthesize tool results into accurate, fact-based responses\n- If a tool yields no results, state this clearly without offering alternatives\n\nResponse Protocol:\n- **General knowledge questions**: Answer using existing knowledge without searching\n- **Course outline/structure questions**: Use get_course_outline, then present the full outline with course title, course link, and all lessons\n- **Course content questions**: Use search_course_content, then answer\n- **No meta-commentary**:\n - Provide direct answers only — no reasoning process, search explanations, or question-type analysis\n - Do not mention \"based on the search results\" or \"based on the tool results\"\n\n\nAll responses must be:\n1. **Brief, Concise and focused** - Get to the point quickly\n2. **Educational** - Maintain instructional value\n3. **Clear** - Use accessible language\n4. **Example-supported** - Include relevant examples when they aid understanding\nProvide only the direct answer to what was asked.\n"

/-- Class constant `MAX_TOOL_ROUNDS = 2`. -/
def MAX_TOOL_ROUNDS : Nat := 2

/-- Python truthiness of the optional `tools` list argument: `None` and the
empty list are falsy. -/
def pyTruthyTools : Option (List ToolDef) → Bool
  | none => false
  | some l => !l.isEmpty

/-- System content built at the top of `generate_response`: Python
truthiness makes both `None` and the empty string fall to the static
prompt. -/
def buildSystemContent : Option String → String
  | some h =>
      if h = "" then SYSTEM_PROMPT
      else SYSTEM_PROMPT ++ "\n\nPrevious conversation:\n" ++ h
  | none => SYSTEM_PROMPT

/-- The `api_params` dict assembled by `generate_response` before the first
completion-engine call. -/
def initialParams (query : String) (conversation_history : Option String)
    (tools : Option (List ToolDef)) : ApiParams :=
  if pyTruthyTools tools then
    { messages := [{ role := "user", content := MsgContent.text query }]
      system := buildSystemContent conversation_history
      tools := tools
      tool_choice := some "auto" }
  else
    { messages := [{ role := "user", content := MsgContent.text query }]
      system := buildSystemContent conversation_history
      tools := none
      tool_choice := none }

/-- The Python expression `response.content[0].text`: `none` models the
expression raising (IndexError on empty content, AttributeError when the
first block is a tool-use block). -/
def firstBlockText : List ContentBlock → Option String
  | ContentBlock.text t :: _ => some t
  | _ => none

/-- Outcome of `return response.content[0].text`. -/
def finishWith (resp : Response) : Outcome :=
  match firstBlockText resp.content with
  | some t => Outcome.ok t
  | none => Outcome.attrFail

/-- One guarded call `tool_manager.execute_tool(name, **input)`: a raised
exception is converted to the textual result "Tool execution error: e". -/
def applyTool (tm : ToolManager) (name : String)
    (input : List (String × String)) : String :=
  match tm name input with
  | Except.ok r => r
  | Except.error e => "Tool execution error: " ++ e

/-- The tool dispatches a round performs: one per tool-use content block, in
block order. -/
def toolCallsOf (content : List ContentBlock) : List ToolCall :=
  content.filterMap fun b =>
    match b with
    | ContentBlock.toolUse id name input => some (id, name, input)
    | _ => none

/-- The `tool_results` list built by the inner loop of
`_handle_tool_execution`: one result per tool-use block, in block order,
with the failing dispatches converted to error text by `applyTool`. -/
def buildToolResults (tm : ToolManager) (content : List ContentBlock) :
    List ToolResult :=
  content.filterMap fun b =>
    match b with
    | ContentBlock.toolUse id name input =>
        some { tool_use_id := id, content := applyTool tm name input }
    | _ => none

/-- Transcript growth of one round: append the assistant message carrying
the response's content, then, when any tool results were produced, a single
combined user message holding them all. -/
def roundMessages (tm : ToolManager) (messages : List Message)
    (content : List ContentBlock) : List Message :=
  let withAssistant :=
    messages ++ [{ role := "assistant", content := MsgContent.blocks content }]
  let trs := buildToolResults tm content
  if trs.isEmpty then withAssistant
  else withAssistant ++ [{ role := "user", content := MsgContent.results trs }]

/-- The `next_params` dict of a round: tools (and tool choice auto) are
included only when this is not the final round and the tools value is
truthy. -/
def nextRoundParams (system : String) (tools : Option (List ToolDef))
    (isFinal : Bool) (messages : List Message) : ApiParams :=
  if !isFinal && pyTruthyTools tools then
    { messages := messages, system := system, tools := tools
      tool_choice := some "auto" }
  else
    { messages := messages, system := system, tools := none
      tool_choice := none }

/-- The `for round_count in range(MAX_TOOL_ROUNDS)` loop of
`_handle_tool_execution`, recursing on the number of remaining rounds: at
`remaining = k + 1` the Python `round_count` is `MAX_TOOL_ROUNDS - (k + 1)`,
so `is_final_round = (round_count + 1 >= MAX_TOOL_ROUNDS)` is `k = 0`.
Returns the engine calls made, the dispatches made, and the outcome. -/
def handleRounds (engine : Engine) (tm : ToolManager) (system : String)
    (tools : Option (List ToolDef)) :
    Nat → List Message → Response → List ApiParams × List ToolCall × Outcome
  | 0, _, resp => ([], [], finishWith resp)
  | k + 1, messages, resp =>
    let msgs2 := roundMessages tm messages resp.content
    let ds := toolCallsOf resp.content
    let nps := nextRoundParams system tools (k == 0) msgs2
    match engine nps with
    | Except.error e => ([nps], ds, Outcome.engineFail e)
    | Except.ok resp' =>
      if resp'.stop_reason ≠ "tool_use" then ([nps], ds, finishWith resp')
      else
        let rest := handleRounds engine tm system tools k msgs2 resp'
        (nps :: rest.1, ds ++ rest.2.1, rest.2.2)

/-- Method `_handle_tool_execution`: runs the round loop starting from the
messages, system content and tools recorded in `base_params`. -/
def handle_tool_execution (engine : Engine) (initial_response : Response)
    (base_params : ApiParams) (tm : ToolManager) :
    List ApiParams × List ToolCall × Outcome :=
  handleRounds engine tm base_params.system base_params.tools
    MAX_TOOL_ROUNDS base_params.messages initial_response

/-- Method `generate_response`: build the initial parameters, make the first
completion-engine call, and either return its text directly or enter the
tool-execution loop when the stop reason is tool_use and a tool manager is
available. -/
def generate_response (engine : Engine) (query : String)
    (conversation_history : Option String) (tools : Option (List ToolDef))
    (tool_manager : Option ToolManager) : RunLog :=
  let api_params := initialParams query conversation_history tools
  match engine api_params with
  | Except.error e =>
      { calls := [api_params], dispatches := [], outcome := Outcome.engineFail e }
  | Except.ok response =>
      match tool_manager with
      | some tm =>
          if response.stop_reason = "tool_use" then
            let r := handle_tool_execution engine response api_params tm
            { calls := api_params :: r.1, dispatches := r.2.1, outcome := r.2.2 }
          else
            { calls := [api_params], dispatches := [], outcome := finishWith response }
      | none =>
          { calls := [api_params], dispatches := [], outcome := finishWith response }

/-- One round's transcript growth shape: the new message list extends the
old one with exactly one assistant message, followed by either nothing or a
single combined tool-result user message. -/
def StepMsgs (m m' : List Message) : Prop :=
  ∃ content rest,
    m' = m ++ [{ role := "assistant", content := MsgContent.blocks content }] ++ rest ∧
    (rest = [] ∨ ∃ trs, rest = [{ role := "user", content := MsgContent.results trs }])

/-- The message lists of a sequence of engine calls grow append-only in
round-shaped steps, starting from the anchor list `m`. -/
def ChainFrom (m : List Message) : List ApiParams → Prop
  | [] => True
  | p :: ps => StepMsgs m p.messages ∧ ChainFrom p.messages ps

/-- Sample tool definition used in concrete runs. -/
def sampleToolDef : ToolDef :=
  { name := "search_course_content", description := "Search course materials" }

/-- Sample tool manager: the search tool succeeds, everything else raises. -/
def sampleToolManager : ToolManager := fun name _ =>
  if name = "search_course_content" then Except.ok "search result text"
  else Except.error "unknown tool"

/-- A response that requests one tool invocation and carries no leading text
block. -/
def respToolUseOnly : Response :=
  { stop_reason := "tool_use"
    content := [ContentBlock.toolUse "toolu_1" "search_course_content" [("query", "x")]] }

/-- A plain-text response with a non-tool-use stop reason. -/
def respPlain : Response :=
  { stop_reason := "end_turn", content := [ContentBlock.text "final answer"] }

/-- An engine that requests tool use on every call. -/
def engineAllToolUse : Engine := fun _ => Except.ok respToolUseOnly

/-- An engine that answers with plain text immediately on every call. -/
def enginePlain : Engine := fun _ => Except.ok respPlain

/-- An engine whose every call raises. -/
def engineRaise : Engine := fun _ => Except.error "connection refused"

/-- A content list with two tool-use requests of which the second names an
unknown tool, so its dispatch by `sampleToolManager` raises. -/
def contentTwo : List ContentBlock :=
  [ContentBlock.toolUse "toolu_1" "search_course_content" [("query", "x")],
   ContentBlock.toolUse "toolu_2" "bogus_tool" []]

/- ------------------------------------------------------------------ -/
/- Helper lemmas                                                      -/
/- ------------------------------------------------------------------ -/

/-- The tool-result list is the pointwise image of the tool-call list. -/
theorem buildToolResults_eq_map (tm : ToolManager) (content : List ContentBlock) :
    buildToolResults tm content =
      (toolCallsOf content).map fun c =>
        { tool_use_id := c.1, content := applyTool tm c.2.1 c.2.2 } := by
  induction content with
  | nil => rfl
  | cons b rest ih =>
    cases b with
    | text t => simpa [buildToolResults, toolCallsOf] using ih
    | toolUse id name input => simpa [buildToolResults, toolCallsOf] using ih

theorem nextRoundParams_messages (s : String) (ts : Option (List ToolDef))
    (b : Bool) (m : List Message) : (nextRoundParams s ts b m).messages = m := by
  unfold nextRoundParams
  split <;> rfl

theorem nextRoundParams_final (s : String) (ts : Option (List ToolDef))
    (m : List Message) :
    nextRoundParams s ts true m =
      { messages := m, system := s, tools := none, tool_choice := none } := by
  simp [nextRoundParams]

theorem nextRoundParams_noTools (s : String) (ts : Option (List ToolDef))
    (b : Bool) (m : List Message) (h : pyTruthyTools ts = false) :
    nextRoundParams s ts b m =
      { messages := m, system := s, tools := none, tool_choice := none } := by
  simp [nextRoundParams, h]

/-- Unfolding lemma for one iteration of the round loop, with the let
bindings of the definition expanded. -/
theorem handleRounds_succ (engine : Engine) (tm : ToolManager) (s : String)
    (ts : Option (List ToolDef)) (k : Nat) (m : List Message) (r : Response) :
    handleRounds engine tm s ts (k + 1) m r =
      match engine (nextRoundParams s ts (k == 0) (roundMessages tm m r.content)) with
      | Except.error e =>
          ([nextRoundParams s ts (k == 0) (roundMessages tm m r.content)],
            toolCallsOf r.content, Outcome.engineFail e)
      | Except.ok resp' =>
          if resp'.stop_reason ≠ "tool_use" then
            ([nextRoundParams s ts (k == 0) (roundMessages tm m r.content)],
              toolCallsOf r.content, finishWith resp')
          else
            (nextRoundParams s ts (k == 0) (roundMessages tm m r.content) ::
                (handleRounds engine tm s ts k (roundMessages tm m r.content) resp').1,
              toolCallsOf r.content ++
                (handleRounds engine tm s ts k (roundMessages tm m r.content) resp').2.1,
              (handleRounds engine tm s ts k (roundMessages tm m r.content) resp').2.2) := by
  rfl

/-- The round loop makes at most one engine call per remaining round. -/
theorem handleRounds_length (engine : Engine) (tm : ToolManager) (s : String)
    (ts : Option (List ToolDef)) :
    ∀ (k : Nat) (m : List Message) (r : Response),
      ((handleRounds engine tm s ts k m r).1).length ≤ k := by
  intro k
  induction k with
  | zero => intro m r; simp [handleRounds]
  | succ k ih =>
    intro m r
    rw [handleRounds_succ]
    cases hE : engine (nextRoundParams s ts (k == 0) (roundMessages tm m r.content)) with
    | error e => simp
    | ok r' =>
      by_cases hs : r'.stop_reason = "tool_use"
      · simp only [hs, ne_eq, not_true_eq_false, if_false, List.length_cons]
        exact Nat.succ_le_succ (ih _ _)
      · simp [hs]

/-- The engine call made for the last remaining round carries no tool
definitions and no tool choice. -/
theorem handleRounds_final_call (engine : Engine) (tm : ToolManager) (s : String)
    (ts : Option (List ToolDef)) :
    ∀ (k j : Nat) (m : List Message) (r : Response) (p : ApiParams),
      ((handleRounds engine tm s ts k m r).1).get? j = some p →
      j + 1 = k → p.tools = none ∧ p.tool_choice = none := by
  intro k
  induction k with
  | zero => intro j m r p hget _; simp [handleRounds] at hget
  | succ k ih =>
    intro j m r p hget hj
    rw [handleRounds_succ] at hget
    cases hE : engine (nextRoundParams s ts (k == 0) (roundMessages tm m r.content)) with
    | error e =>
      rw [hE] at hget
      simp only [List.get?] at hget
      match j, hget with
      | 0, hget =>
        have hk : k = 0 := by omega
        subst hk
        simp only [List.get?_cons_zero, Option.some.injEq] at hget
        subst hget
        simp [nextRoundParams]
      | j' + 1, hget => simp at hget
    | ok r' =>
      rw [hE] at hget
      by_cases hs : r'.stop_reason = "tool_use"
      · simp only [hs, ne_eq, not_true_eq_false, if_false] at hget
        match j, hget with
        | 0, hget =>
          have hk : k = 0 := by omega
          subst hk
          simp only [List.get?_cons_zero, Option.some.injEq] at hget
          subst hget
          simp [nextRoundParams]
        | j' + 1, hget =>
          simp only [List.get?_cons_succ] at hget
          exact ih j' _ _ p hget (by omega)
      · simp only [hs, ne_eq, not_false_eq_true, if_true] at hget
        match j, hget with
        | 0, hget =>
          have hk : k = 0 := by omega
          subst hk
          simp only [List.get?_cons_zero, Option.some.injEq] at hget
          subst hget
          simp [nextRoundParams]
        | j' + 1, hget => simp at hget

/-- Explicit shape of one round's transcript growth. -/
theorem roundMessages_eq (tm : ToolManager) (m : List Message)
    (content : List ContentBlock) :
    roundMessages tm m content =
      (m ++ [{ role := "assistant", content := MsgContent.blocks content }]) ++
        (if (buildToolResults tm content).isEmpty then []
         else [{ role := "user", content := MsgContent.results (buildToolResults tm content) }]) := by
  unfold roundMessages
  by_cases hh : (buildToolResults tm content).isEmpty <;> simp [hh]

/-- One round's transcript growth is a round-shaped append step. -/
theorem roundMessages_step (tm : ToolManager) (m : List Message)
    (content : List ContentBlock) : StepMsgs m (roundMessages tm m content) := by
  unfold StepMsgs
  by_cases hh : (buildToolResults tm content).isEmpty
  · refine ⟨content, [], ?_, Or.inl rfl⟩
    rw [roundMessages_eq]
    simp [hh]
  · refine ⟨content,
      [{ role := "user", content := MsgContent.results (buildToolResults tm content) }],
      ?_, Or.inr ⟨_, rfl⟩⟩
    rw [roundMessages_eq]
    simp [hh]

/-- The engine calls made by the round loop form a round-shaped append-only
chain anchored at the starting message list. -/
theorem handleRounds_chain (engine : Engine) (tm : ToolManager) (s : String)
    (ts : Option (List ToolDef)) :
    ∀ (k : Nat) (m : List Message) (r : Response),
      ChainFrom m ((handleRounds engine tm s ts k m r).1) := by
  intro k
  induction k with
  | zero => intro m r; exact trivial
  | succ k ih =>
    intro m r
    rw [handleRounds_succ]
    cases hE : engine (nextRoundParams s ts (k == 0) (roundMessages tm m r.content)) with
    | error e =>
      refine ⟨?_, trivial⟩
      rw [nextRoundParams_messages]
      exact roundMessages_step tm m r.content
    | ok r' =>
      by_cases hs : r'.stop_reason = "tool_use"
      · simp only [hs, ne_eq, not_true_eq_false, if_false]
        refine ⟨?_, ?_⟩
        · rw [nextRoundParams_messages]
          exact roundMessages_step tm m r.content
        · rw [nextRoundParams_messages]
          exact ih _ _
      · simp only [hs, ne_eq, not_false_eq_true, if_true]
        refine ⟨?_, trivial⟩
        rw [nextRoundParams_messages]
        exact roundMessages_step tm m r.content

/-- Consecutive elements of a round-shaped chain are related by a
round-shaped append step. -/
theorem chainFrom_get :
    ∀ (ps : List ApiParams) (m : List Message) (i : Nat) (p q : ApiParams),
      ChainFrom m ps → ps.get? i = some p → ps.get? (i + 1) = some q →
      StepMsgs p.messages q.messages := by
  intro ps
  induction ps with
  | nil => intro m i p q _ h1 _; simp at h1
  | cons x xs ih =>
    intro m i p q hc h1 h2
    cases i with
    | zero =>
      simp only [List.get?_cons_zero, Option.some.injEq] at h1
      subst h1
      simp only [List.get?_cons_succ] at h2
      cases xs with
      | nil => simp at h2
      | cons y ys =>
        simp only [List.get?_cons_zero, Option.some.injEq] at h2
        subst h2
        exact hc.2.1
    | succ i' =>
      simp only [List.get?_cons_succ] at h1 h2
      exact ih x.messages i' p q hc.2 h1 h2

/-- The head of a round-shaped chain steps from the anchor. -/
theorem chainFrom_head :
    ∀ (ps : List ApiParams) (m : List Message) (p : ApiParams),
      ChainFrom m ps → ps.get? 0 = some p → StepMsgs m p.messages := by
  intro ps m p hc h
  cases ps with
  | nil => simp at h
  | cons x xs =>
    simp only [List.get?_cons_zero, Option.some.injEq] at h
    subst h
    exact hc.1

/-- When the tools value is falsy, no call of the round loop ever carries
tools or a tool choice. -/
theorem handleRounds_noTools (engine : Engine) (tm : ToolManager) (s : String)
    (ts : Option (List ToolDef)) (hts : pyTruthyTools ts = false) :
    ∀ (k : Nat) (m : List Message) (r : Response) (p : ApiParams),
      p ∈ ((handleRounds engine tm s ts k m r).1) →
      p.tools = none ∧ p.tool_choice = none := by
  intro k
  induction k with
  | zero => intro m r p hp; simp [handleRounds] at hp
  | succ k ih =>
    intro m r p hp
    rw [handleRounds_succ] at hp
    cases hE : engine (nextRoundParams s ts (k == 0) (roundMessages tm m r.content)) with
    | error e =>
      rw [hE] at hp
      simp only [List.mem_singleton] at hp
      subst hp
      rw [nextRoundParams_noTools _ _ _ _ hts]
      exact ⟨rfl, rfl⟩
    | ok r' =>
      rw [hE] at hp
      by_cases hs : r'.stop_reason = "tool_use"
      · simp only [hs, ne_eq, not_true_eq_false, if_false, List.mem_cons] at hp
        cases hp with
        | inl h => subst h; rw [nextRoundParams_noTools _ _ _ _ hts]; exact ⟨rfl, rfl⟩
        | inr h => exact ih _ _ _ h
      · simp only [hs, ne_eq, not_false_eq_true, if_true, List.mem_singleton] at hp
        subst hp
        rw [nextRoundParams_noTools _ _ _ _ hts]
        exact ⟨rfl, rfl⟩

/-- Unfolding lemma for `generate_response`, with the let binding of the
definition expanded. -/
theorem generate_response_eq (engine : Engine) (q : String)
    (h : Option String) (ts : Option (List ToolDef)) (tmo : Option ToolManager) :
    generate_response engine q h ts tmo =
      match engine (initialParams q h ts) with
      | Except.error e =>
          { calls := [initialParams q h ts], dispatches := [],
            outcome := Outcome.engineFail e }
      | Except.ok response =>
          match tmo with
          | some tm =>
              if response.stop_reason = "tool_use" then
                { calls := initialParams q h ts ::
                    (handle_tool_execution engine response (initialParams q h ts) tm).1,
                  dispatches := (handle_tool_execution engine response (initialParams q h ts) tm).2.1,
                  outcome := (handle_tool_execution engine response (initialParams q h ts) tm).2.2 }
              else
                { calls := [initialParams q h ts], dispatches := [],
                  outcome := finishWith response }
          | none =>
              { calls := [initialParams q h ts], dispatches := [],
                outcome := finishWith response } := by
  rfl

/-- Behaviour of `generate_response` when the first engine call raises. -/
theorem generate_response_of_error (engine : Engine) (q : String)
    (h : Option String) (ts : Option (List ToolDef)) (tmo : Option ToolManager)
    (e : String) (hE : engine (initialParams q h ts) = Except.error e) :
    generate_response engine q h ts tmo =
      { calls := [initialParams q h ts], dispatches := [],
        outcome := Outcome.engineFail e } := by
  rw [generate_response_eq, hE]

/-- Behaviour of `generate_response` when the first response does not
request tool use. -/
theorem generate_response_of_plain (engine : Engine) (q : String)
    (h : Option String) (ts : Option (List ToolDef)) (tmo : Option ToolManager)
    (resp : Response) (hE : engine (initialParams q h ts) = Except.ok resp)
    (hs : resp.stop_reason ≠ "tool_use") :
    generate_response engine q h ts tmo =
      { calls := [initialParams q h ts], dispatches := [],
        outcome := finishWith resp } := by
  rw [generate_response_eq, hE]
  cases tmo with
  | none => rfl
  | some tm => simp [hs]

/-- Behaviour of `generate_response` without a tool manager. -/
theorem generate_response_of_no_manager (engine : Engine) (q : String)
    (h : Option String) (ts : Option (List ToolDef)) (resp : Response)
    (hE : engine (initialParams q h ts) = Except.ok resp) :
    generate_response engine q h ts none =
      { calls := [initialParams q h ts], dispatches := [],
        outcome := finishWith resp } := by
  rw [generate_response_eq, hE]

/-- Behaviour of `generate_response` when the first response requests tool
use and a tool manager is available. -/
theorem generate_response_of_tool_use (engine : Engine) (q : String)
    (h : Option String) (ts : Option (List ToolDef)) (tm : ToolManager)
    (resp : Response) (hE : engine (initialParams q h ts) = Except.ok resp)
    (hs : resp.stop_reason = "tool_use") :
    generate_response engine q h ts (some tm) =
      { calls := initialParams q h ts ::
          (handle_tool_execution engine resp (initialParams q h ts) tm).1,
        dispatches := (handle_tool_execution engine resp (initialParams q h ts) tm).2.1,
        outcome := (handle_tool_execution engine resp (initialParams q h ts) tm).2.2 } := by
  rw [generate_response_eq, hE]
  simp [hs]

/- ------------------------------------------------------------------ -/
/- Claim theorems                                                     -/
/- ------------------------------------------------------------------ -/

/-- C1: for every query in which the completion engine requests tool use on
every response, the orchestrator (`generate_response` together with
`_handle_tool_execution`) makes at most MAX_TOOL_ROUNDS + 1 = 3
completion-engine calls in total, and the call at index MAX_TOOL_ROUNDS
(the synthesis call, issued when round + 1 >= MAX_TOOL_ROUNDS) carries no
tool definitions and no tool_choice parameter, so the loop always
terminates. -/
theorem c1_bounded_engine_calls (engine : Engine) (tm : ToolManager)
    (q : String) (h : Option String) (ts : Option (List ToolDef))
    (hall : ∀ p r, engine p = Except.ok r → r.stop_reason = "tool_use") :
    (generate_response engine q h ts (some tm)).calls.length ≤ MAX_TOOL_ROUNDS + 1 ∧
    (∀ p, (generate_response engine q h ts (some tm)).calls.get? MAX_TOOL_ROUNDS = some p →
      p.tools = none ∧ p.tool_choice = none) := by
  cases hE : engine (initialParams q h ts) with
  | error e =>
    rw [generate_response_of_error engine q h ts (some tm) e hE]
    constructor
    · simp [MAX_TOOL_ROUNDS]
    · intro p hp
      simp [MAX_TOOL_ROUNDS] at hp
  | ok resp =>
    have hs := hall _ _ hE
    rw [generate_response_of_tool_use engine q h ts tm resp hE hs]
    unfold handle_tool_execution
    constructor
    · simp only [List.length_cons]
      have hlen := handleRounds_length engine tm (initialParams q h ts).system
        (initialParams q h ts).tools MAX_TOOL_ROUNDS (initialParams q h ts).messages resp
      omega
    · intro p hp
      have hp' : ((handleRounds engine tm (initialParams q h ts).system
          (initialParams q h ts).tools MAX_TOOL_ROUNDS
          (initialParams q h ts).messages resp).1).get? 1 = some p := hp
      exact handleRounds_final_call engine tm _ _ MAX_TOOL_ROUNDS 1 _ _ p hp' (by rfl)

/-- C2: in every tool-dispatch round, each content block of type tool_use,
in block order, yields exactly one tool result whose tool_use_id equals the
block's id; the round's results are appended to the transcript as a single
combined tool-result message, in request order, only after the assistant
message carrying the requests has been appended. -/
theorem c2_results_match_requests (engine : Engine) (tm : ToolManager)
    (s : String) (ts : Option (List ToolDef)) (k : Nat) (m : List Message)
    (r : Response) (p : ApiParams)
    (hp : ((handleRounds engine tm s ts (k + 1) m r).1).head? = some p) :
    (buildToolResults tm r.content).map ToolResult.tool_use_id =
      (toolCallsOf r.content).map (fun c => c.1) ∧
    p.messages =
      (m ++ [{ role := "assistant", content := MsgContent.blocks r.content }]) ++
        (if (buildToolResults tm r.content).isEmpty then []
         else [{ role := "user",
                 content := MsgContent.results (buildToolResults tm r.content) }]) := by
  constructor
  · rw [buildToolResults_eq_map]
    simp
  · have hm : p.messages = roundMessages tm m r.content := by
      rw [handleRounds_succ] at hp
      cases hE : engine (nextRoundParams s ts (k == 0) (roundMessages tm m r.content)) with
      | error e =>
        rw [hE] at hp
        simp only [List.head?_cons, Option.some.injEq] at hp
        subst hp
        exact nextRoundParams_messages s ts (k == 0) (roundMessages tm m r.content)
      | ok r' =>
        rw [hE] at hp
        by_cases hs : r'.stop_reason = "tool_use"
        · simp only [hs, ne_eq, not_true_eq_false, if_false, List.head?_cons,
            Option.some.injEq] at hp
          subst hp
          exact nextRoundParams_messages s ts (k == 0) (roundMessages tm m r.content)
        · simp only [hs, ne_eq, not_false_eq_true, if_true, List.head?_cons,
            Option.some.injEq] at hp
          subst hp
          exact nextRoundParams_messages s ts (k == 0) (roundMessages tm m r.content)
    rw [hm, roundMessages_eq]

/-- C3: a tool dispatch that raises is converted into the textual result
"Tool execution error: <detail>"; every tool invocation request of the
round, the failing one included, still receives exactly one result at the
same position and with the same id as its request, and no exception
propagates from the round. -/
theorem c3_tool_failure_contained (tm : ToolManager) (content : List ContentBlock) :
    (buildToolResults tm content).length = (toolCallsOf content).length ∧
    (∀ (i : Nat) (c : ToolCall), (toolCallsOf content).get? i = some c →
      (buildToolResults tm content).get? i =
        some { tool_use_id := c.1, content := applyTool tm c.2.1 c.2.2 }) ∧
    (∀ (name : String) (input : List (String × String)) (e : String),
      tm name input = Except.error e →
      applyTool tm name input = "Tool execution error: " ++ e) := by
  refine ⟨?_, ?_, ?_⟩
  · rw [buildToolResults_eq_map]
    simp
  · intro i c hc
    rw [buildToolResults_eq_map, List.get?_map, hc]
    rfl
  · intro name input e he
    unfold applyTool
    rw [he]

/-- C4: whenever a completion-engine response's stop reason is not
tool_use, the orchestrator returns that response's text immediately: on the
very first response exactly one engine call is made and the tool registry
is never invoked; on a later round's response the loop exits at that
response with no further tool dispatch and no further engine calls. -/
theorem c4_early_exit :
    (∀ (engine : Engine) (q : String) (h : Option String)
        (ts : Option (List ToolDef)) (tmo : Option ToolManager) (resp : Response),
      engine (initialParams q h ts) = Except.ok resp →
      resp.stop_reason ≠ "tool_use" →
      generate_response engine q h ts tmo =
        { calls := [initialParams q h ts], dispatches := [],
          outcome := finishWith resp }) ∧
    (∀ (engine : Engine) (tm : ToolManager) (s : String)
        (ts : Option (List ToolDef)) (k : Nat) (m : List Message)
        (r resp' : Response),
      engine (nextRoundParams s ts (k == 0) (roundMessages tm m r.content)) =
        Except.ok resp' →
      resp'.stop_reason ≠ "tool_use" →
      handleRounds engine tm s ts (k + 1) m r =
        ([nextRoundParams s ts (k == 0) (roundMessages tm m r.content)],
          toolCallsOf r.content, finishWith resp')) := by
  constructor
  · intro engine q h ts tmo resp hE hs
    exact generate_response_of_plain engine q h ts tmo resp hE hs
  · intro engine tm s ts k m r resp' hE hs
    rw [handleRounds_succ, hE]
    simp [hs]

/-- C5 counterexample: a tool_use response whose content consists of the
tool-use block alone, handled without a tool manager, skips dispatch but
does not return text: `response.content[0].text` fails (an AttributeError,
modelled by `Outcome.attrFail`).  This refutes the claim that the degraded
path never raises for every shape of response content. -/
theorem c5_counterexample :
    (generate_response engineAllToolUse "What is in lesson 2?" none none none).dispatches = [] ∧
    (generate_response engineAllToolUse "What is in lesson 2?" none none none).outcome =
      Outcome.attrFail := by
  constructor <;> rfl

/-- C5 (amended): when the first response requests tool use but no tool
manager was provided, the orchestrator makes no further engine call, skips
all tool dispatch, and evaluates `response.content[0].text`: it returns the
first block's text when that block is a text block, and the attribute
access raises when the content is empty or starts with a non-text block. -/
theorem c5_degraded_no_manager (engine : Engine) (q : String)
    (h : Option String) (ts : Option (List ToolDef)) (resp : Response)
    (hE : engine (initialParams q h ts) = Except.ok resp)
    (hs : resp.stop_reason = "tool_use") :
    generate_response engine q h ts none =
      { calls := [initialParams q h ts], dispatches := [],
        outcome := finishWith resp } ∧
    (∀ t rest, resp.content = ContentBlock.text t :: rest →
      finishWith resp = Outcome.ok t) ∧
    (firstBlockText resp.content = none → finishWith resp = Outcome.attrFail) := by
  refine ⟨generate_response_of_no_manager engine q h ts resp hE, ?_, ?_⟩
  · intro t rest hcon
    unfold finishWith
    rw [hcon]
    rfl
  · intro hnone
    unfold finishWith
    rw [hnone]

/-- C6: if any completion-engine call raises (the initial call of
`generate_response` or a follow-up call inside the round loop), the failure
propagates to the caller unchanged: no text is returned, the failure is not
converted into a textual result, and the call is not retried. -/
theorem c6_engine_failure_propagates :
    (∀ (engine : Engine) (q : String) (h : Option String)
        (ts : Option (List ToolDef)) (tmo : Option ToolManager) (e : String),
      engine (initialParams q h ts) = Except.error e →
      generate_response engine q h ts tmo =
        { calls := [initialParams q h ts], dispatches := [],
          outcome := Outcome.engineFail e }) ∧
    (∀ (engine : Engine) (tm : ToolManager) (s : String)
        (ts : Option (List ToolDef)) (k : Nat) (m : List Message)
        (r : Response) (e : String),
      engine (nextRoundParams s ts (k == 0) (roundMessages tm m r.content)) =
        Except.error e →
      handleRounds engine tm s ts (k + 1) m r =
        ([nextRoundParams s ts (k == 0) (roundMessages tm m r.content)],
          toolCallsOf r.content, Outcome.engineFail e)) := by
  constructor
  · intro engine q h ts tmo e hE
    exact generate_response_of_error engine q h ts tmo e hE
  · intro engine tm s ts k m r e hE
    rw [handleRounds_succ, hE]

/-- C7: within one `generate_response` call the transcript is strictly
append-only: the messages of engine call n are a prefix of the messages of
engine call n + 1, previously appended messages are never modified or
removed, and each round appends exactly one assistant message followed by
at most one combined tool-result message. -/
theorem c7_transcript_append_only (engine : Engine) (q : String)
    (h : Option String) (ts : Option (List ToolDef)) (tmo : Option ToolManager)
    (i : Nat) (p p' : ApiParams)
    (h1 : (generate_response engine q h ts tmo).calls.get? i = some p)
    (h2 : (generate_response engine q h ts tmo).calls.get? (i + 1) = some p') :
    StepMsgs p.messages p'.messages := by
  cases hE : engine (initialParams q h ts) with
  | error e =>
    rw [generate_response_of_error engine q h ts tmo e hE] at h2
    simp at h2
  | ok resp =>
    cases tmo with
    | none =>
      rw [generate_response_of_no_manager engine q h ts resp hE] at h2
      simp at h2
    | some tm =>
      by_cases hs : resp.stop_reason = "tool_use"
      · rw [generate_response_of_tool_use engine q h ts tm resp hE hs] at h1 h2
        have hchain : ChainFrom (initialParams q h ts).messages
            ((handle_tool_execution engine resp (initialParams q h ts) tm).1) := by
          unfold handle_tool_execution
          exact handleRounds_chain engine tm _ _ MAX_TOOL_ROUNDS _ resp
        cases i with
        | zero =>
          simp only [List.get?_cons_zero, Option.some.injEq] at h1
          subst h1
          simp only [List.get?_cons_succ] at h2
          exact chainFrom_head _ _ _ hchain h2
        | succ i' =>
          simp only [List.get?_cons_succ] at h1 h2
          exact chainFrom_get _ _ i' p p' hchain h1 h2
      · rw [generate_response_of_plain engine q h ts (some tm) resp hE hs] at h2
        simp at h2

/-- C8: the first completion-engine call is seeded with exactly one user
message whose content is the query; a non-empty conversation history makes
the system content equal the static system prompt followed by the
previous-conversation header and the history text; a non-empty tools list
is offered on this first call with tool_choice auto. -/
theorem c8_initial_call_shape (engine : Engine) (q : String)
    (h : Option String) (ts : Option (List ToolDef)) (tmo : Option ToolManager) :
    (generate_response engine q h ts tmo).calls.head? = some (initialParams q h ts) ∧
    (initialParams q h ts).messages = [{ role := "user", content := MsgContent.text q }] ∧
    (∀ s, h = some s → s ≠ "" →
      (initialParams q h ts).system =
        SYSTEM_PROMPT ++ "\n\nPrevious conversation:\n" ++ s) ∧
    (∀ l, ts = some l → l ≠ [] →
      (initialParams q h ts).tools = some l ∧
      (initialParams q h ts).tool_choice = some "auto") := by
  refine ⟨?_, ?_, ?_, ?_⟩
  · cases hE : engine (initialParams q h ts) with
    | error e => rw [generate_response_of_error engine q h ts tmo e hE]; rfl
    | ok resp =>
      cases tmo with
      | none => rw [generate_response_of_no_manager engine q h ts resp hE]; rfl
      | some tm =>
        by_cases hs : resp.stop_reason = "tool_use"
        · rw [generate_response_of_tool_use engine q h ts tm resp hE hs]; rfl
        · rw [generate_response_of_plain engine q h ts (some tm) resp hE hs]; rfl
  · unfold initialParams
    split <;> rfl
  · intro s hh hne
    subst hh
    unfold initialParams
    split <;> simp [buildSystemContent, hne]
  · intro l hl hlne
    subst hl
    cases l with
    | nil => exact absurd rfl hlne
    | cons d ds =>
      constructor <;> simp [initialParams, pyTruthyTools]

/-- C9: passing the empty string as conversation history behaves exactly
like passing no history: the system content is the static system prompt
with no previous-conversation section, and the whole run is identical. -/
theorem c9_empty_history (engine : Engine) (q : String)
    (ts : Option (List ToolDef)) (tmo : Option ToolManager) :
    generate_response engine q (some "") ts tmo =
      generate_response engine q none ts tmo ∧
    buildSystemContent (some "") = SYSTEM_PROMPT := by
  have hi : initialParams q (some "") ts = initialParams q none ts := rfl
  constructor
  · rw [generate_response_eq engine q (some "") ts tmo,
      generate_response_eq engine q none ts tmo, hi]
  · rfl

/-- C10: passing an empty tools list behaves exactly like passing no tools:
the run is identical, and no completion-engine call of the query, the
follow-up calls of the round loop included, carries a tools or tool_choice
parameter. -/
theorem c10_empty_tools (engine : Engine) (q : String) (h : Option String)
    (tmo : Option ToolManager) :
    generate_response engine q h (some []) tmo =
      generate_response engine q h none tmo ∧
    (∀ p, p ∈ (generate_response engine q h (some []) tmo).calls →
      p.tools = none ∧ p.tool_choice = none) := by
  have hi : initialParams q h (some []) = initialParams q h none := rfl
  have htools : (initialParams q h (some [])).tools = none := rfl
  constructor
  · rw [generate_response_eq engine q h (some []) tmo,
      generate_response_eq engine q h none tmo, hi]
  · intro p hp
    cases hE : engine (initialParams q h (some [])) with
    | error e =>
      rw [generate_response_of_error engine q h (some []) tmo e hE] at hp
      simp only [List.mem_singleton] at hp
      subst hp
      exact ⟨rfl, rfl⟩
    | ok resp =>
      cases tmo with
      | none =>
        rw [generate_response_of_no_manager engine q h (some []) resp hE] at hp
        simp only [List.mem_singleton] at hp
        subst hp
        exact ⟨rfl, rfl⟩
      | some tm =>
        by_cases hs : resp.stop_reason = "tool_use"
        · rw [generate_response_of_tool_use engine q h (some []) tm resp hE hs] at hp
          simp only [List.mem_cons] at hp
          cases hp with
          | inl hh => subst hh; exact ⟨rfl, rfl⟩
          | inr hh =>
            refine handleRounds_noTools engine tm _ _ ?_ MAX_TOOL_ROUNDS _ resp p hh
            rw [htools]
            rfl
        · rw [generate_response_of_plain engine q h (some []) (some tm) resp hE hs] at hp
          simp only [List.mem_singleton] at hp
          subst hp
          exact ⟨rfl, rfl⟩

/- ------------------------------------------------------------------ -/
/- Witnesses                                                          -/
/- ------------------------------------------------------------------ -/

/-- Witness for C1 at a concrete engine that requests tool use on every
call. -/
theorem c1_witness :
    (generate_response engineAllToolUse "What is in lesson 2?" none
        (some [sampleToolDef]) (some sampleToolManager)).calls.length ≤
      MAX_TOOL_ROUNDS + 1 ∧
    (∀ p, (generate_response engineAllToolUse "What is in lesson 2?" none
        (some [sampleToolDef]) (some sampleToolManager)).calls.get?
          MAX_TOOL_ROUNDS = some p →
      p.tools = none ∧ p.tool_choice = none) :=
  c1_bounded_engine_calls engineAllToolUse sampleToolManager
    "What is in lesson 2?" none (some [sampleToolDef])
    (fun p r hh => by injection hh with h2; subst h2; rfl)

/-- Witness for C2 at a concrete round. -/
theorem c2_witness :
    (buildToolResults sampleToolManager respToolUseOnly.content).map
        ToolResult.tool_use_id =
      (toolCallsOf respToolUseOnly.content).map (fun c => c.1) ∧
    (nextRoundParams "sys" none (0 == 0)
        (roundMessages sampleToolManager [] respToolUseOnly.content)).messages =
      ([] ++ [{ role := "assistant",
                content := MsgContent.blocks respToolUseOnly.content }]) ++
        (if (buildToolResults sampleToolManager respToolUseOnly.content).isEmpty then []
         else [{ role := "user",
                 content := MsgContent.results
                   (buildToolResults sampleToolManager respToolUseOnly.content) }]) :=
  c2_results_match_requests enginePlain sampleToolManager "sys" none 0 []
    respToolUseOnly
    (nextRoundParams "sys" none (0 == 0)
      (roundMessages sampleToolManager [] respToolUseOnly.content))
    (by rfl)

/-- Witness for C3 at a round with one succeeding and one raising
dispatch. -/
theorem c3_witness :
    (buildToolResults sampleToolManager contentTwo).length =
      (toolCallsOf contentTwo).length ∧
    (buildToolResults sampleToolManager contentTwo).get? 1 =
      some { tool_use_id := "toolu_2",
             content := applyTool sampleToolManager "bogus_tool" [] } ∧
    applyTool sampleToolManager "bogus_tool" [] =
      "Tool execution error: " ++ "unknown tool" :=
  ⟨(c3_tool_failure_contained sampleToolManager contentTwo).1,
   (c3_tool_failure_contained sampleToolManager contentTwo).2.1 1
     ("toolu_2", "bogus_tool", []) (by rfl),
   (c3_tool_failure_contained sampleToolManager contentTwo).2.2
     "bogus_tool" [] "unknown tool" (by rfl)⟩

/-- Witness for C4 on a concrete plain-text engine, for both the
round-zero exit and the in-loop exit. -/
theorem c4_witness :
    generate_response enginePlain "q" none none (some sampleToolManager) =
      { calls := [initialParams "q" none none], dispatches := [],
        outcome := finishWith respPlain } ∧
    handleRounds enginePlain sampleToolManager "sys" none (0 + 1) []
        respToolUseOnly =
      ([nextRoundParams "sys" none (0 == 0)
          (roundMessages sampleToolManager [] respToolUseOnly.content)],
        toolCallsOf respToolUseOnly.content, finishWith respPlain) :=
  ⟨c4_early_exit.1 enginePlain "q" none none (some sampleToolManager) respPlain
     rfl (by decide),
   c4_early_exit.2 enginePlain sampleToolManager "sys" none 0 [] respToolUseOnly
     respPlain rfl (by decide)⟩

/-- Witness for the amended C5 at a concrete tool_use response. -/
theorem c5_witness :
    generate_response engineAllToolUse "q" none none none =
      { calls := [initialParams "q" none none], dispatches := [],
        outcome := finishWith respToolUseOnly } ∧
    (∀ t rest, respToolUseOnly.content = ContentBlock.text t :: rest →
      finishWith respToolUseOnly = Outcome.ok t) ∧
    (firstBlockText respToolUseOnly.content = none →
      finishWith respToolUseOnly = Outcome.attrFail) :=
  c5_degraded_no_manager engineAllToolUse "q" none none respToolUseOnly rfl rfl

/-- Witness for C6 at an engine whose calls raise. -/
theorem c6_witness :
    generate_response engineRaise "q" none none none =
      { calls := [initialParams "q" none none], dispatches := [],
        outcome := Outcome.engineFail "connection refused" } ∧
    handleRounds engineRaise sampleToolManager "sys" none (0 + 1) []
        respToolUseOnly =
      ([nextRoundParams "sys" none (0 == 0)
          (roundMessages sampleToolManager [] respToolUseOnly.content)],
        toolCallsOf respToolUseOnly.content,
        Outcome.engineFail "connection refused") :=
  ⟨c6_engine_failure_propagates.1 engineRaise "q" none none none
     "connection refused" rfl,
   c6_engine_failure_propagates.2 engineRaise sampleToolManager "sys" none 0 []
     respToolUseOnly "connection refused" rfl⟩

/-- Witness for C7 on the first two calls of a concrete tool-using run. -/
theorem c7_witness :
    StepMsgs (initialParams "q" none (some [sampleToolDef])).messages
      (nextRoundParams (initialParams "q" none (some [sampleToolDef])).system
        (initialParams "q" none (some [sampleToolDef])).tools (1 == 0)
        (roundMessages sampleToolManager
          (initialParams "q" none (some [sampleToolDef])).messages
          respToolUseOnly.content)).messages :=
  c7_transcript_append_only engineAllToolUse "q" none (some [sampleToolDef])
    (some sampleToolManager) 0
    (initialParams "q" none (some [sampleToolDef]))
    (nextRoundParams (initialParams "q" none (some [sampleToolDef])).system
      (initialParams "q" none (some [sampleToolDef])).tools (1 == 0)
      (roundMessages sampleToolManager
        (initialParams "q" none (some [sampleToolDef])).messages
        respToolUseOnly.content))
    (by rfl) (by rfl)

/-- Witness for C8 at a concrete query with history and tools. -/
theorem c8_witness :
    (generate_response enginePlain "q" (some "earlier chat")
        (some [sampleToolDef]) none).calls.head? =
      some (initialParams "q" (some "earlier chat") (some [sampleToolDef])) ∧
    (initialParams "q" (some "earlier chat") (some [sampleToolDef])).messages =
      [{ role := "user", content := MsgContent.text "q" }] ∧
    (∀ s, (some "earlier chat" : Option String) = some s → s ≠ "" →
      (initialParams "q" (some "earlier chat") (some [sampleToolDef])).system =
        SYSTEM_PROMPT ++ "\n\nPrevious conversation:\n" ++ s) ∧
    (∀ l, (some [sampleToolDef] : Option (List ToolDef)) = some l → l ≠ [] →
      (initialParams "q" (some "earlier chat") (some [sampleToolDef])).tools =
        some l ∧
      (initialParams "q" (some "earlier chat") (some [sampleToolDef])).tool_choice =
        some "auto") :=
  c8_initial_call_shape enginePlain "q" (some "earlier chat")
    (some [sampleToolDef]) none

/-- Witness for C9 at a concrete run. -/
theorem c9_witness :
    generate_response enginePlain "q" (some "") none none =
      generate_response enginePlain "q" none none none ∧
    buildSystemContent (some "") = SYSTEM_PROMPT :=
  c9_empty_history enginePlain "q" none none

/-- Witness for C10 at a concrete tool-using run. -/
theorem c10_witness :
    generate_response engineAllToolUse "q" none (some [])
        (some sampleToolManager) =
      generate_response engineAllToolUse "q" none none (some sampleToolManager) ∧
    (∀ p, p ∈ (generate_response engineAllToolUse "q" none (some [])
        (some sampleToolManager)).calls →
      p.tools = none ∧ p.tool_choice = none) :=
  c10_empty_tools engineAllToolUse "q" none (some sampleToolManager)

end AIGenerator
